import Mathlib

/-!
Verification of the chat-completion gateway core.

Shallow embedding of the request-validation and completion-relay pipeline
of the gateway (source: `app/core/config.py`, `app/models/chat.py`,
`app/services/ollama.py`, `api/v1/chat.py`).

Modelling conventions:
* Python floats are modelled as exact rationals (`ℚ`); the literal `1.3`
  becomes `13/10` and `300.0` becomes `300`.
* `None` becomes `Option.none`; Python truthiness of an optional string or
  int is modelled explicitly (`""` and `0` are falsy).
* The HTTP backend is an explicit parameter: a value describing what the
  single `httpx` call (or the streamed sequence of lines) would produce.
  "The backend is never contacted" is stated as independence of the result
  from that parameter.
* `uuid.uuid4()` and `datetime.now()` are explicit parameters (`uuid`,
  `now`) since they are external inputs.
-/

deriving instance DecidableEq for Except

namespace GpuText

/-- Source `app/models/chat.py`, `ChatMessage`: a role ("system"/"user"/"assistant")
and a content string. -/
structure ChatMessage where
  role : String
  content : String
deriving DecidableEq, Repr

/-- Source `app/models/chat.py`, `ChatCompletionRequest` after pydantic parsing:
`messages`, `model` (plain string, default "llama2"), optional
`temperature` (default 0.7), optional `max_tokens` (default 2000),
`stream` flag (default false). -/
structure ChatCompletionRequest where
  messages : List ChatMessage
  model : String := "llama2"
  temperature : Option ℚ := some (7/10)
  max_tokens : Option Int := some 2000
  stream : Bool := false
deriving DecidableEq, Repr

/-- Token-usage mapping (Python `dict` of metric name to count), modelled as
an association list. -/
abbrev Usage := List (String × Int)

/-- Source `app/models/chat.py`, `ChatCompletionResponse`. -/
structure ChatCompletionResponse where
  id : String
  model : String
  created : Int
  message : ChatMessage
  usage : Usage
deriving DecidableEq, Repr

/-- Source `app/models/chat.py`, `ChatCompletionStreamResponse`: one streamed
chunk; `usage` is optional and only present on the final chunk. -/
structure ChatCompletionStreamResponse where
  id : String
  model : String
  created : Int
  delta : ChatMessage
  usage : Option Usage
deriving DecidableEq, Repr

/-- Model of `fastapi.HTTPException`: a status code and a detail string. -/
structure HTTPExc where
  status_code : Int
  detail : String
deriving DecidableEq, Repr

/-- Source `app/core/config.py`: the `Settings` class (scalar configuration the
process resolves at startup).  Note: the class defines *no* per-request
timeout field.  `RESPONSE_CONFIG` is a dict of sampling parameters merged
into every backend payload; its values are numeric. -/
structure Settings where
  APP_NAME : String := "GPU-Text-Service"
  DEBUG : Bool := false
  API_V1_STR : String := "/api/v1"
  ENVIRONMENT : String := "development"
  OLLAMA_HOST : String := "http://localhost:11434"
  OLLAMA_MODEL : String := "llama3.1:70b"
  DEFAULT_TEMPERATURE : ℚ := 7/10
  MAX_TOKENS : Int := 131072
  MAX_CONTEXT_LENGTH : Int := 131072
  MODEL_EMBEDDING_SIZE : Int := 8192
  MODEL_BLOCK_COUNT : Int := 80
  MODEL_ATTENTION_HEAD_COUNT : Int := 64
  MODEL_ATTENTION_HEAD_COUNT_KV : Int := 8
  MODEL_FEED_FORWARD_LENGTH : Int := 28672
  ALLOWED_ORIGINS : List String :=
    ["https://dev.cacticultures.com", "https://staging.cacticultures.com",
     "https://cacticultures.com", "http://localhost:8000",
     "http://localhost:8001", "http://localhost:8002",
     "http://localhost:8003", "http://localhost:8004",
     "http://localhost:8005", "http://localhost:8006",
     "http://localhost:8007", "http://localhost:8008",
     "http://localhost:8009", "http://localhost:8010"]
  AVAILABLE_MODELS : List String := ["llama3.1:70b", "qwq:32b"]
  API_KEY_HEADER : String := "X-API-Key"
  ACCESS_TOKEN_EXPIRE_MINUTES : Int := 30
  SECURITY_ALGORITHM : String := "HS256"
  RATE_LIMIT_PER_MINUTE : Int := 60
  LOG_LEVEL : String := "INFO"
  RESPONSE_CONFIG : List (String × ℚ) :=
    [("max_new_tokens", 131072), ("temperature", 7/10), ("top_p", 9/10),
     ("top_k", 50), ("repeat_penalty", 11/10), ("presence_penalty", 0),
     ("frequency_penalty", 0)]
deriving DecidableEq, Repr

/-- The module-level `settings = get_settings()` instance, with every field
at its declared default. -/
def settings : Settings := {}

/-- Source `app/services/ollama.py`: the fields `OllamaService.__init__` copies
out of `settings`, plus the hard-coded `self.timeout = 300.0`. -/
structure OllamaService where
  base_url : String
  model : String
  timeout : ℚ
  max_context_length : Int
  available_models : List String
deriving DecidableEq, Repr

/-- Constructor `OllamaService.__init__`: reads host, default model, context length and
allow-list from the settings object; the timeout is the literal `300.0`
(comment in source: "5 minutes timeout"), not a settings field. -/
def OllamaService.init (s : Settings) : OllamaService :=
  { base_url := s.OLLAMA_HOST
    model := s.OLLAMA_MODEL
    timeout := 300
    max_context_length := s.MAX_CONTEXT_LENGTH
    available_models := s.AVAILABLE_MODELS }

/-- The service the route dependency constructs from the module settings. -/
def defaultService : OllamaService := OllamaService.init settings

/-- Helper for `wordCount`: walks the characters once, counting maximal
runs of non-whitespace; the flag records whether the previous character
was inside a word. -/
def wordCountAux : List Char → Bool → Nat
  | [], _ => 0
  | c :: cs, inWord =>
    if c.isWhitespace then wordCountAux cs false
    else (if inWord then 0 else 1) + wordCountAux cs true

/-- Model of `len(s.split())` — Python `str.split()` with no argument splits on runs
of whitespace and drops empty pieces, so the length is the number of
maximal non-whitespace runs. -/
def wordCount (s : String) : Nat := wordCountAux s.data false

/-- The estimate inside `_validate_token_count`:
`sum(len(msg.content.split()) * 1.3 for msg in messages)`. -/
def estimatedTokens (messages : List ChatMessage) : ℚ :=
  (messages.map (fun m => (wordCount m.content : ℚ) * (13/10))).sum

/-- Method `OllamaService._validate_token_count`: raises a 400 when the estimate
plus `max_tokens` exceeds the configured context length. -/
def OllamaService.validate_token_count (svc : OllamaService)
    (messages : List ChatMessage) (max_tokens : Int) : Except HTTPExc Unit :=
  if estimatedTokens messages + (max_tokens : ℚ) > (svc.max_context_length : ℚ) then
    .error ⟨400, "Combined input and output tokens exceed model's context length of "
                  ++ toString svc.max_context_length⟩
  else
    .ok ()

/-- Python truthiness of an optional string (`None` and `""` are falsy). -/
def strTruthy : Option String → Bool
  | none => false
  | some s => s ≠ ""

/-- Python truthiness of an optional int (`None` and `0` are falsy). -/
def intTruthy : Option Int → Bool
  | none => false
  | some n => n ≠ 0

/-- Method `OllamaService._validate_model`: `if model and model not in
self.available_models: raise 400`, else `return model or self.model`. -/
def OllamaService.validate_model (svc : OllamaService)
    (model : Option String) : Except HTTPExc String :=
  if strTruthy model ∧ model.getD "" ∉ svc.available_models then
    .error ⟨400, "Model " ++ model.getD "" ++ " not available. Available models: "
                  ++ String.intercalate ", " svc.available_models⟩
  else
    .ok (if strTruthy model then model.getD "" else svc.model)

/-- What the single non-streaming `httpx` call produces, as seen by the
`try` block of `generate_chat_completion`: a timeout, an HTTP error status
(from `raise_for_status`), some other exception, or a decoded JSON body.
The decoded body is abstracted by the two fields the code reads:
`result["message"]["content"]` (`none` models a body where the key lookup
raises `KeyError`) and `result.get("usage", {})`. -/
inductive BackendResult where
  | timeout
  | statusError (status : Int) (text : String)
  | otherError (msg : String)
  | success (messageContent : Option String) (usage : Option Usage)
deriving DecidableEq, Repr

/-- Model of `str(e)` for the `KeyError` raised when the backend body lacks
`message.content`; only its presence matters to the claims. -/
def keyErrorStr : String := "KeyError"

/-- Statement `if max_tokens: await self._validate_token_count(...)` — the
token-budget check, run only when `max_tokens` is truthy. -/
def OllamaService.budgetCheck (svc : OllamaService)
    (messages : List ChatMessage) (max_tokens : Option Int) :
    Except HTTPExc Unit :=
  if intTruthy max_tokens then
    svc.validate_token_count messages (max_tokens.getD 0)
  else
    .ok ()

/-- Statement `if temperature is not None: if not 0 <= temperature <= 2: raise ...` -/
def tempCheck (temperature : Option ℚ) : Except HTTPExc Unit :=
  match temperature with
  | some t =>
    if ¬ (0 ≤ t ∧ t ≤ 2) then
      .error ⟨400, "Temperature must be between 0 and 2"⟩
    else
      .ok ()
  | none => .ok ()

/-- Statement `if max_tokens is not None: if max_tokens > settings.MAX_CONTEXT_LENGTH:
raise ...` -/
def maxTokensCheck (cfg : Settings) (max_tokens : Option Int) :
    Except HTTPExc Unit :=
  match max_tokens with
  | some mt =>
    if mt > cfg.MAX_CONTEXT_LENGTH then
      .error ⟨400, "max_tokens exceeds model's maximum context length of "
                    ++ toString cfg.MAX_CONTEXT_LENGTH⟩
    else
      .ok ()
  | none => .ok ()

/-- The validation prefix both service entry points run before contacting
the backend, duplicated verbatim in the source (`generate_chat_completion`
lines 49–81 and `generate_chat_completion_stream` lines 132–163), in
statement order: model validation, then the token-budget check, then the
temperature range check, then the `max_tokens` bound check; the first
raise wins.  Returns the resolved model. -/
def OllamaService.validateRequest (svc : OllamaService) (cfg : Settings)
    (messages : List ChatMessage) (temperature : Option ℚ)
    (max_tokens : Option Int) (model : Option String) :
    Except HTTPExc String :=
  match svc.validate_model model with
  | .error e => .error e
  | .ok m =>
    match svc.budgetCheck messages max_tokens with
    | .error e => .error e
    | .ok _ =>
      match tempCheck temperature with
      | .error e => .error e
      | .ok _ =>
        match maxTokensCheck cfg max_tokens with
        | .error e => .error e
        | .ok _ => .ok m

/-- Method `OllamaService.generate_chat_completion`, with the external inputs
(backend outcome, fresh uuid, current time) as parameters: the validation
prefix, then the backend call and its exception handlers
(`httpx.TimeoutException` → 504, `httpx.HTTPStatusError` → pass-through
status with the backend text embedded, any other exception → 500; a body
without `message.content` raises `KeyError` inside the `try`, landing in
the generic handler). -/
def OllamaService.generate_chat_completion (svc : OllamaService)
    (cfg : Settings) (backend : BackendResult) (uuid : String) (now : Int)
    (messages : List ChatMessage) (temperature : Option ℚ)
    (max_tokens : Option Int) (model : Option String) :
    Except HTTPExc ChatCompletionResponse :=
  match svc.validateRequest cfg messages temperature max_tokens model with
  | .error e => .error e
  | .ok model =>
    match backend with
    | .timeout => .error ⟨504, "Request timed out"⟩
    | .statusError st text => .error ⟨st, "Ollama API error: " ++ text⟩
    | .otherError msg => .error ⟨500, "Internal server error: " ++ msg⟩
    | .success messageContent usage =>
      match messageContent with
      | none => .error ⟨500, "Internal server error: " ++ keyErrorStr⟩
      | some content =>
        .ok { id := uuid, model := model, created := now
              message := { role := "assistant", content := content }
              usage := usage.getD [] }

/-! Streaming relay. -/

/-- One line of the backend's newline-delimited stream, abstracted by what
`json.loads` plus the two `chunk.get` lookups see: an empty (falsy) line,
a non-empty line on which `json.loads` raises `JSONDecodeError`, or a
decoded object with its `message.content` (missing content behaves as
`""`: both are falsy), `done` flag, and optional `usage`. -/
inductive Line where
  | empty
  | malformed (raw : String)
  | chunk (content : String) (done : Bool) (usage : Option Usage)
deriving DecidableEq, Repr

/-- How the backend's streamed response terminates after its lines are
delivered: normal end of stream, a read timeout, or some other exception
(disconnect, `raise_for_status`, ...). -/
inductive StreamTermination where
  | done
  | timeout
  | exc (msg : String)
deriving DecidableEq, Repr

/-- The streamed backend response: the lines delivered, then how the
iteration ended. -/
structure BackendStream where
  lines : List Line
  term : StreamTermination
deriving DecidableEq, Repr

/-- The body of the `async for` loop of `generate_chat_completion_stream`:
an empty line is skipped (`if line:`), a malformed line is skipped
(`except json.JSONDecodeError: continue`), and a decoded chunk yields an
event only when its `message.content` is truthy, attaching `usage` only
when `done` is true. -/
def processLine (id model : String) (created : Int) :
    Line → Option ChatCompletionStreamResponse
  | .empty => none
  | .malformed _ => none
  | .chunk content don usage =>
    if content ≠ "" then
      some { id := id, model := model, created := created
             delta := { role := "assistant", content := content }
             usage := if don then usage else none }
    else
      none

/-- What consuming the async generator produces: the values it yielded, and
the exception (if any) it raised at the end. -/
structure GenOutcome where
  yielded : List ChatCompletionStreamResponse
  raised : Option HTTPExc
deriving DecidableEq, Repr

/-- Method `OllamaService.generate_chat_completion_stream`, with the backend
stream as a parameter.  Validation mirrors the non-streaming path
statement for statement; a validation failure raises before anything is
yielded.  Then every delivered line goes through `processLine`, and the
stream's termination is mapped by the generator's handlers: timeout →
504 "Stream request timed out", any other exception → 500 "Stream error:
...". -/
def OllamaService.generate_chat_completion_stream (svc : OllamaService)
    (cfg : Settings) (bs : BackendStream) (uuid : String) (now : Int)
    (messages : List ChatMessage) (temperature : Option ℚ)
    (max_tokens : Option Int) (model : Option String) : GenOutcome :=
  match svc.validateRequest cfg messages temperature max_tokens model with
  | .error e => { yielded := [], raised := some e }
  | .ok m =>
    { yielded := bs.lines.filterMap (processLine uuid m now)
      raised :=
        match bs.term with
        | .done => none
        | .timeout => some ⟨504, "Stream request timed out"⟩
        | .exc msg => some ⟨500, "Stream error: " ++ msg⟩ }

/-- A JSON string literal: quote, escape backslashes, quotes and newlines
(the escapes `json.dumps` always applies that can occur here). -/
def jsonStr (s : String) : String :=
  "\"" ++ String.join (s.data.map (fun c =>
    if c = '\\' then "\\\\"
    else if c = '\"' then "\\\""
    else if c = '\n' then "\\n"
    else String.singleton c)) ++ "\""

/-- Serialization of an optional usage dict (`null` when absent). -/
def jsonUsage : Option Usage → String
  | none => "null"
  | some u =>
    "\x7b" ++ String.intercalate ", "
      (u.map (fun kv => jsonStr kv.1 ++ ": " ++ toString kv.2)) ++ "\x7d"

/-- Model of `chunk.json()` — pydantic's JSON serialization of a
`ChatCompletionStreamResponse`.  A JSON object: it always starts with an
opening brace. -/
def ChatCompletionStreamResponse.json (r : ChatCompletionStreamResponse) : String :=
  "\x7b\"id\": " ++ jsonStr r.id
    ++ ", \"model\": " ++ jsonStr r.model
    ++ ", \"created\": " ++ toString r.created
    ++ ", \"delta\": \x7b\"role\": " ++ jsonStr r.delta.role
    ++ ", \"content\": " ++ jsonStr r.delta.content
    ++ "\x7d, \"usage\": " ++ jsonUsage r.usage ++ "\x7d"

/-- Model of `str(e)` for an `HTTPException`: the claims only depend on this being
interpolated after the `[ERROR] ` marker. -/
def HTTPExc.str (e : HTTPExc) : String :=
  toString e.status_code ++ ": " ++ e.detail

/-- The `data: <chunk JSON>\n\n` frame for one yielded chunk. -/
def dataFrame (r : ChatCompletionStreamResponse) : String :=
  "data: " ++ r.json ++ "\n\n"

/-- The `data: [ERROR] ...\n\n` frame the relay emits when the generator
raises. -/
def errorFrame (e : HTTPExc) : String :=
  "data: [ERROR] " ++ e.str ++ "\n\n"

/-- The closing sentinel frame. -/
def doneFrame : String := "data: [DONE]\n\n"

/-- Source `api/v1/chat.py`, `stream_response`: relay every yielded chunk as a
data frame (the `try` body); if the generator raises, emit one error frame
(the `except` body); in all cases emit the `[DONE]` sentinel last (the
`finally` body). -/
def stream_response (g : GenOutcome) : List String :=
  g.yielded.map dataFrame
    ++ (match g.raised with
        | some e => [errorFrame e]
        | none => [])
    ++ [doneFrame]

/-! Route handlers, source `api/v1/chat.py`. -/

/-- Handler `create_chat_completion` — the `POST /chat` route: forwards
`request.messages`, `request.temperature` and `request.max_tokens` to the
service; the request's `model` field is *not* forwarded (the service sees
`None`). -/
def create_chat_completion (svc : OllamaService) (cfg : Settings)
    (backend : BackendResult) (uuid : String) (now : Int)
    (request : ChatCompletionRequest) : Except HTTPExc ChatCompletionResponse :=
  svc.generate_chat_completion cfg backend uuid now
    request.messages request.temperature request.max_tokens none

/-- Handler `create_chat_completion_stream` — the `POST /chat/stream` route: the
service stream (again without the request's `model` field) wrapped in
`stream_response`; the value is the list of frames the client receives. -/
def create_chat_completion_stream (svc : OllamaService) (cfg : Settings)
    (bs : BackendStream) (uuid : String) (now : Int)
    (request : ChatCompletionRequest) : List String :=
  stream_response (svc.generate_chat_completion_stream cfg bs uuid now
    request.messages request.temperature request.max_tokens none)

/-! Frame lemmas. -/

/-- A data frame is never the sentinel: its seventh character is the
opening brace of the chunk's JSON object, not `[`. -/
theorem dataFrame_ne_done (r : ChatCompletionStreamResponse) :
    dataFrame r ≠ doneFrame := by
  intro h
  have hd := congrArg String.data h
  simp only [dataFrame, doneFrame, ChatCompletionStreamResponse.json,
    String.data_append] at hd
  have h6 := congrArg (fun l => l[6]?) hd
  simp at h6

/-- An error frame is never the sentinel: the characters after `data: [`
differ (`E` vs `D`). -/
theorem errorFrame_ne_done (e : HTTPExc) : errorFrame e ≠ doneFrame := by
  intro h
  have hd := congrArg String.data h
  simp only [errorFrame, doneFrame, String.data_append] at hd
  have h7 := congrArg (fun l => l[7]?) hd
  simp at h7

/-- The sentinel appears exactly once among the frames `stream_response`
emits, whatever the generator did. -/
theorem stream_response_count_done (g : GenOutcome) :
    (stream_response g).count doneFrame = 1 := by
  unfold stream_response
  rw [List.count_append, List.count_append]
  have h1 : (g.yielded.map dataFrame).count doneFrame = 0 := by
    rw [List.count_eq_zero]
    intro hmem
    obtain ⟨r, _, hr⟩ := List.mem_map.mp hmem
    exact dataFrame_ne_done r hr
  have h2 : (match g.raised with
      | some e => [errorFrame e]
      | none => ([] : List String)).count doneFrame = 0 := by
    cases hr : g.raised with
    | none => simp
    | some e =>
      simp only [List.count_eq_zero, List.mem_singleton]
      intro h
      exact errorFrame_ne_done e h.symm
  rw [h1, h2]
  simp [List.count_singleton]

/-- The sentinel is the last frame `stream_response` emits, whatever the
generator did. -/
theorem stream_response_last_done (g : GenOutcome) :
    (stream_response g).getLast? = some doneFrame := by
  unfold stream_response
  rw [List.getLast?_concat]

/-! Claim theorems. -/

/-- C1: for every streaming request to `POST /chat/stream` — whatever the
configuration, the backend stream (normal completion, mid-transmission
failure after any number of chunks, or failure before any content) and the
request — the frame `data: [DONE]\n\n` is emitted exactly once and as the
absolute last frame; and whenever the generator raised (mid-stream failure
or validation failure), an error-annotated frame immediately precedes the
sentinel. -/
theorem C1_done_sentinel_exactly_once_and_last (svc : OllamaService)
    (cfg : Settings) (bs : BackendStream) (uuid : String) (now : Int)
    (req : ChatCompletionRequest) :
    (create_chat_completion_stream svc cfg bs uuid now req).count doneFrame = 1 ∧
    (create_chat_completion_stream svc cfg bs uuid now req).getLast? =
      some doneFrame ∧
    ∀ e, (svc.generate_chat_completion_stream cfg bs uuid now
            req.messages req.temperature req.max_tokens none).raised = some e →
      create_chat_completion_stream svc cfg bs uuid now req =
        (svc.generate_chat_completion_stream cfg bs uuid now
            req.messages req.temperature req.max_tokens none).yielded.map dataFrame
          ++ [errorFrame e, doneFrame] := by
  refine ⟨stream_response_count_done _, stream_response_last_done _, ?_⟩
  intro e he
  unfold create_chat_completion_stream stream_response
  rw [he]
  simp

/-- Witness for C1's error-frame conjunct: a backend stream that raises
after two chunks still ends in an error frame followed by the sentinel. -/
theorem C1_witness :
    (OllamaService.generate_chat_completion_stream defaultService settings
        ⟨[.chunk "He" false none, .chunk "llo" false none], .exc "boom"⟩
        "u1" 5 [⟨"user", "hi"⟩] none none none).raised =
      some ⟨500, "Stream error: boom"⟩ ∧
    create_chat_completion_stream defaultService settings
        ⟨[.chunk "He" false none, .chunk "llo" false none], .exc "boom"⟩
        "u1" 5 ⟨[⟨"user", "hi"⟩], "llama2", none, none, false⟩ =
      (OllamaService.generate_chat_completion_stream defaultService settings
        ⟨[.chunk "He" false none, .chunk "llo" false none], .exc "boom"⟩
        "u1" 5 [⟨"user", "hi"⟩] none none none).yielded.map dataFrame
        ++ [errorFrame ⟨500, "Stream error: boom"⟩, doneFrame] := by
  constructor
  · rfl
  · exact (C1_done_sentinel_exactly_once_and_last defaultService settings
      ⟨[.chunk "He" false none, .chunk "llo" false none], .exc "boom"⟩
      "u1" 5 ⟨[⟨"user", "hi"⟩], "llama2", none, none, false⟩).2.2
      ⟨500, "Stream error: boom"⟩ rfl

/-- C8: a non-empty line that fails to decode as JSON is silently skipped —
deleting it from the backend stream changes nothing: the client receives
exactly the same frames, no extra event and no error, and the lines around
it are processed in order. -/
theorem C8_malformed_lines_skipped (svc : OllamaService) (cfg : Settings)
    (pre post : List Line) (raw : String) (term : StreamTermination)
    (uuid : String) (now : Int) (req : ChatCompletionRequest) :
    create_chat_completion_stream svc cfg ⟨pre ++ [.malformed raw] ++ post, term⟩
        uuid now req =
      create_chat_completion_stream svc cfg ⟨pre ++ post, term⟩ uuid now req := by
  simp [create_chat_completion_stream, stream_response,
    OllamaService.generate_chat_completion_stream, processLine]

/-- The backend stream shape claim C2 quantifies over: `contents` chunks
(each intended non-empty) followed by exactly one done-chunk whose message
content is `dc` and which carries usage `u`, then normal end of stream. -/
def contentStream (contents : List String) (dc : String) (u : Usage) :
    BackendStream :=
  ⟨contents.map (fun c => Line.chunk c false none)
      ++ [Line.chunk dc true (some u)], .done⟩

/-- The event the generator yields for a content-bearing, non-done chunk. -/
def contentEvent (uuid m : String) (now : Int) (c : String) :
    ChatCompletionStreamResponse :=
  { id := uuid, model := m, created := now
    delta := { role := "assistant", content := c }, usage := none }

/-- Non-empty content chunks are relayed one-for-one. -/
theorem filterMap_content_chunks (uuid m : String) (now : Int)
    (contents : List String) (hc : ∀ c ∈ contents, c ≠ "") :
    (contents.map (fun c => Line.chunk c false none)).filterMap
        (processLine uuid m now) =
      contents.map (contentEvent uuid m now) := by
  induction contents with
  | nil => rfl
  | cons c cs ih =>
    have hc1 : c ≠ "" := hc c (by simp)
    simp only [List.map_cons, List.filterMap_cons, processLine, hc1,
      if_pos, ne_eq, not_false_eq_true, if_true]
    rw [ih (fun x hx => hc x (List.mem_cons_of_mem c hx))]
    rfl

/-- C2 counterexample: a backend stream of N = 1 content chunk followed by
one done-chunk carrying usage `[("total", 42)]` (with the empty message
content the backend's terminal chunk actually has) produces only 2 frames
for the client, not the claimed N + 2 = 3, and the usage mapping is never
delivered: the lone yielded event carries `usage = none`. -/
theorem C2_counterexample :
    (create_chat_completion_stream defaultService settings
        (contentStream ["Hello"] "" [("total", 42)])
        "u1" 5 ⟨[⟨"user", "hi"⟩], "llama2", none, none, true⟩).length = 2 ∧
    (create_chat_completion_stream defaultService settings
        (contentStream ["Hello"] "" [("total", 42)])
        "u1" 5 ⟨[⟨"user", "hi"⟩], "llama2", none, none, true⟩).length ≠ 1 + 2 ∧
    (OllamaService.generate_chat_completion_stream defaultService settings
        (contentStream ["Hello"] "" [("total", 42)])
        "u1" 5 [⟨"user", "hi"⟩] none none none).yielded.map
        (fun r => r.usage) = [none] := by
  refine ⟨rfl, by decide, rfl⟩

/-- C2 as amended: for a validated request and a backend stream of N
non-empty content chunks followed by one done-chunk with usage, the client
receives N + 2 frames with the last data event carrying the usage mapping
*only when the done-chunk's own message content is non-empty*; a
done-chunk with empty content is dropped, giving N + 1 frames (the data
events plus the sentinel) and no usage event at all. -/
theorem C2_frames_for_content_stream (svc : OllamaService) (cfg : Settings)
    (uuid : String) (now : Int) (req : ChatCompletionRequest) (m : String)
    (contents : List String) (dc : String) (u : Usage)
    (hval : svc.validateRequest cfg req.messages req.temperature
              req.max_tokens none = .ok m)
    (hc : ∀ c ∈ contents, c ≠ "") :
    (dc = "" →
      (create_chat_completion_stream svc cfg (contentStream contents dc u)
          uuid now req).length = contents.length + 1 ∧
      ∀ r ∈ (svc.generate_chat_completion_stream cfg
          (contentStream contents dc u) uuid now req.messages
          req.temperature req.max_tokens none).yielded, r.usage = none) ∧
    (dc ≠ "" →
      (create_chat_completion_stream svc cfg (contentStream contents dc u)
          uuid now req).length = contents.length + 2 ∧
      (svc.generate_chat_completion_stream cfg (contentStream contents dc u)
          uuid now req.messages req.temperature req.max_tokens
          none).yielded.getLast? =
        some ⟨uuid, m, now, ⟨"assistant", dc⟩, some u⟩) := by
  have hg : ∀ ol : Option ChatCompletionStreamResponse,
      processLine uuid m now (Line.chunk dc true (some u)) = ol →
      svc.generate_chat_completion_stream cfg (contentStream contents dc u)
          uuid now req.messages req.temperature req.max_tokens none =
        { yielded := contents.map (contentEvent uuid m now) ++ ol.toList
          raised := none } := by
    intro ol hh
    unfold OllamaService.generate_chat_completion_stream
    rw [hval]
    simp only [contentStream, List.filterMap_append,
      filterMap_content_chunks uuid m now contents hc, List.filterMap_cons,
      hh, List.filterMap_nil]
    cases ol <;> rfl
  constructor
  · intro hdc0
    have hy := hg none (by simp [processLine, hdc0])
    constructor
    · unfold create_chat_completion_stream
      rw [hy]
      simp [stream_response]
    · rw [hy]
      intro r hr
      simp only [Option.toList_none, List.append_nil] at hr
      obtain ⟨c, _, hrc⟩ := List.mem_map.mp hr
      rw [← hrc]
      rfl
  · intro hdcne
    have hy := hg (some ⟨uuid, m, now, ⟨"assistant", dc⟩, some u⟩)
      (by simp [processLine, hdcne])
    constructor
    · unfold create_chat_completion_stream
      rw [hy]
      simp [stream_response]
    · rw [hy]
      simp [List.getLast?_concat]

/-- Witness for C2's amended theorem: one content chunk "Hi" and a
done-chunk with content "!" and usage `{"total": 42}` give 1 + 2 = 3
frames, the last yielded event carrying the usage. -/
theorem C2_frames_witness :
    (create_chat_completion_stream defaultService settings
        (contentStream ["Hi"] "!" [("total", 42)])
        "u2" 7 ⟨[⟨"user", "hey"⟩], "llama2", none, none, true⟩).length = 1 + 2 ∧
    (OllamaService.generate_chat_completion_stream defaultService settings
        (contentStream ["Hi"] "!" [("total", 42)])
        "u2" 7 [⟨"user", "hey"⟩] none none none).yielded.getLast? =
      some ⟨"u2", "llama3.1:70b", 7, ⟨"assistant", "!"⟩, some [("total", 42)]⟩ :=
  (C2_frames_for_content_stream defaultService settings "u2" 7
      ⟨[⟨"user", "hey"⟩], "llama2", none, none, true⟩ "llama3.1:70b"
      ["Hi"] "!" [("total", 42)] rfl (by decide)).2 (by decide)

/-- C3 counterexample: a request naming model "not-a-model" — which is not
in the configured allow-list — is *not* rejected: the `POST /chat` handler
returns a successful completion built from the backend's reply (so the
backend was contacted), with the default model substituted. -/
theorem C3_counterexample :
    "not-a-model" ∉ settings.AVAILABLE_MODELS ∧
    create_chat_completion defaultService settings (.success (some "yo") none)
        "u3" 9 ⟨[⟨"user", "hi"⟩], "not-a-model", none, none, false⟩ =
      .ok ⟨"u3", "llama3.1:70b", 9, ⟨"assistant", "yo"⟩, []⟩ := by
  exact ⟨by decide, rfl⟩

/-- C3 as amended: at the service level, a non-empty model outside the
allow-list yields a 400 ValidationError whose detail names the allowed
set, and the backend is never contacted (the verdict is the same error for
every backend outcome); an absent model skips the check and resolves to
the configured default.  The route handlers, however, never forward the
request's `model` field, so the API-level result is independent of it. -/
theorem C3_model_allow_list (svc : OllamaService) (cfg : Settings)
    (backend : BackendResult) (uuid : String) (now : Int)
    (messages : List ChatMessage) (temperature : Option ℚ)
    (max_tokens : Option Int) (mm : String)
    (hne : mm ≠ "") (hnotin : mm ∉ svc.available_models) :
    svc.validate_model (some mm) =
      .error ⟨400, "Model " ++ mm ++ " not available. Available models: "
                    ++ String.intercalate ", " svc.available_models⟩ ∧
    svc.generate_chat_completion cfg backend uuid now messages temperature
        max_tokens (some mm) =
      .error ⟨400, "Model " ++ mm ++ " not available. Available models: "
                    ++ String.intercalate ", " svc.available_models⟩ ∧
    svc.validate_model none = .ok svc.model ∧
    ∀ (req : ChatCompletionRequest) (s : String),
      create_chat_completion svc cfg backend uuid now req =
        create_chat_completion svc cfg backend uuid now
          { req with model := s } := by
  have hvm : svc.validate_model (some mm) =
      .error ⟨400, "Model " ++ mm ++ " not available. Available models: "
                    ++ String.intercalate ", " svc.available_models⟩ := by
    unfold OllamaService.validate_model
    rw [if_pos]
    · rfl
    · exact ⟨by simp [strTruthy, hne], by simpa using hnotin⟩
  refine ⟨hvm, ?_, ?_, ?_⟩
  · unfold OllamaService.generate_chat_completion
      OllamaService.validateRequest
    rw [hvm]
  · unfold OllamaService.validate_model
    rw [if_neg]
    · rfl
    · simp [strTruthy]
  · intro req s
    rfl

/-- Witness for C3's amended theorem at model "bad" against the default
configuration. -/
theorem C3_model_allow_list_witness :
    OllamaService.validate_model defaultService (some "bad") =
      .error ⟨400, "Model bad not available. Available models: "
                    ++ String.intercalate ", " defaultService.available_models⟩ ∧
    OllamaService.generate_chat_completion defaultService settings
        (.success (some "yo") none) "u4" 3 [⟨"user", "hi"⟩] none none
        (some "bad") =
      .error ⟨400, "Model bad not available. Available models: "
                    ++ String.intercalate ", " defaultService.available_models⟩ ∧
    OllamaService.validate_model defaultService none =
      .ok defaultService.model ∧
    ∀ (req : ChatCompletionRequest) (s : String),
      create_chat_completion defaultService settings
          (.success (some "yo") none) "u4" 3 req =
        create_chat_completion defaultService settings
          (.success (some "yo") none) "u4" 3 { req with model := s } :=
  C3_model_allow_list defaultService settings (.success (some "yo") none)
    "u4" 3 [⟨"user", "hi"⟩] none none "bad" (by decide) (by decide)

/-- A second configuration, differing from the module settings in its
backend address, default model, context length and token ceiling. -/
def settingsAlt : Settings :=
  { settings with
    OLLAMA_HOST := "http://elsewhere:9"
    OLLAMA_MODEL := "other"
    MAX_CONTEXT_LENGTH := 1
    MAX_TOKENS := 1 }

/-- C5 counterexample: the per-request timeout is not taken from the
configuration object — two configurations differing in their backend
address, default model, context length and token ceiling produce the same
hard-coded 300-second timeout (and `Settings` declares no timeout field at
all). -/
theorem C5_counterexample :
    (OllamaService.init settings).timeout = 300 ∧
    (OllamaService.init settingsAlt).timeout = 300 ∧
    settingsAlt ≠ settings := by
  refine ⟨rfl, rfl, by decide⟩

/-- C5 as amended: the timeout bounding every backend call is the constant
`300.0` hard-coded in `OllamaService.__init__`, identical for every
resolved configuration. -/
theorem C5_timeout_hardcoded (s : Settings) :
    (OllamaService.init s).timeout = 300 := rfl

/-- C10: the behavior of `POST /chat` and `POST /chat/stream` is
independent of the request's `model` field — for any two requests
differing only in `model`, the handlers produce identical results against
the same backend, and every successful non-streaming response reports the
configured default model. -/
theorem C10_model_field_ignored (svc : OllamaService) (cfg : Settings)
    (backend : BackendResult) (bs : BackendStream) (uuid : String)
    (now : Int) (req req' : ChatCompletionRequest)
    (hmsg : req.messages = req'.messages)
    (ht : req.temperature = req'.temperature)
    (hmt : req.max_tokens = req'.max_tokens) :
    create_chat_completion svc cfg backend uuid now req =
      create_chat_completion svc cfg backend uuid now req' ∧
    create_chat_completion_stream svc cfg bs uuid now req =
      create_chat_completion_stream svc cfg bs uuid now req' ∧
    ∀ resp, create_chat_completion svc cfg backend uuid now req = .ok resp →
      resp.model = svc.model := by
  refine ⟨?_, ?_, ?_⟩
  · unfold create_chat_completion
    rw [hmsg, ht, hmt]
  · unfold create_chat_completion_stream
    rw [hmsg, ht, hmt]
  · intro resp h
    unfold create_chat_completion OllamaService.generate_chat_completion at h
    cases hv : OllamaService.validateRequest svc cfg req.messages
        req.temperature req.max_tokens none with
    | error e => rw [hv] at h; exact absurd h (by simp)
    | ok m =>
      rw [hv] at h
      have hm : m = svc.model := by
        unfold OllamaService.validateRequest at hv
        have hvm : svc.validate_model none = .ok svc.model := by
          unfold OllamaService.validate_model
          rw [if_neg]
          · rfl
          · simp [strTruthy]
        rw [hvm] at hv
        cases hb : svc.budgetCheck req.messages req.max_tokens with
        | error e => rw [hb] at hv; exact absurd hv (by simp)
        | ok v =>
          rw [hb] at hv
          cases htc : tempCheck req.temperature with
          | error e => rw [htc] at hv; exact absurd hv (by simp)
          | ok v2 =>
            rw [htc] at hv
            cases hmc : maxTokensCheck cfg req.max_tokens with
            | error e => rw [hmc] at hv; exact absurd hv (by simp)
            | ok v3 =>
              rw [hmc] at hv
              simpa using hv.symm
      cases backend with
      | timeout => exact absurd h (by simp)
      | statusError st text => exact absurd h (by simp)
      | otherError msg => exact absurd h (by simp)
      | success mc usage =>
        cases mc with
        | none => exact absurd h (by simp)
        | some content =>
          simp only [Except.ok.injEq] at h
          rw [← h, hm]

/-- Witness for C10 at two concrete requests differing only in `model`. -/
theorem C10_model_field_ignored_witness :
    create_chat_completion defaultService settings (.success (some "yo") none)
        "u5" 1 ⟨[⟨"user", "hi"⟩], "llama2", none, none, false⟩ =
      create_chat_completion defaultService settings (.success (some "yo") none)
        "u5" 1 ⟨[⟨"user", "hi"⟩], "totally-different", none, none, false⟩ ∧
    ∀ resp, create_chat_completion defaultService settings
        (.success (some "yo") none) "u5" 1
        ⟨[⟨"user", "hi"⟩], "llama2", none, none, false⟩ = .ok resp →
      resp.model = defaultService.model := by
  have h := C10_model_field_ignored defaultService settings
    (.success (some "yo") none) ⟨[], .done⟩ "u5" 1
    ⟨[⟨"user", "hi"⟩], "llama2", none, none, false⟩
    ⟨[⟨"user", "hi"⟩], "totally-different", none, none, false⟩ rfl rfl rfl
  exact ⟨h.1, h.2.2⟩

/-- Every error `_validate_model` raises carries status 400. -/
theorem validate_model_error_400 (svc : OllamaService) (mo : Option String)
    (e : HTTPExc) (h : svc.validate_model mo = .error e) :
    e.status_code = 400 := by
  unfold OllamaService.validate_model at h
  split at h
  · exact congrArg HTTPExc.status_code (Except.error.inj h) ▸ rfl
  · exact absurd h (by simp)

/-- Every error the token-budget check raises carries status 400. -/
theorem budgetCheck_error_400 (svc : OllamaService)
    (messages : List ChatMessage) (mt : Option Int) (e : HTTPExc)
    (h : svc.budgetCheck messages mt = .error e) : e.status_code = 400 := by
  unfold OllamaService.budgetCheck OllamaService.validate_token_count at h
  split at h
  · split at h
    · exact congrArg HTTPExc.status_code (Except.error.inj h) ▸ rfl
    · exact absurd h (by simp)
  · exact absurd h (by simp)

/-- An out-of-range temperature makes `tempCheck` raise the 400 of the
source. -/
theorem tempCheck_out_of_range (t : ℚ) (ht : ¬ (0 ≤ t ∧ t ≤ 2)) :
    tempCheck (some t) =
      .error ⟨400, "Temperature must be between 0 and 2"⟩ := by
  have hred : tempCheck (some t) =
      if ¬ (0 ≤ t ∧ t ≤ 2) then
        .error ⟨400, "Temperature must be between 0 and 2"⟩
      else
        .ok () := rfl
  rw [hred, if_pos ht]

/-- The pydantic `Field` constraints of `ChatCompletionRequest`
(`messages: min_items=1`, `temperature: ge=0.0, le=2.0`,
`max_tokens: gt=0`), as one schema predicate. -/
def ChatCompletionRequest.schemaOK (r : ChatCompletionRequest) : Bool :=
  1 ≤ r.messages.length
    && (match r.temperature with
        | some t => decide (0 ≤ t ∧ t ≤ 2)
        | none => true)
    && (match r.max_tokens with
        | some mt => decide (0 < mt)
        | none => true)

/-- C4 counterexample: a request violating both the temperature-range
constraint (claimed to be checked second) and the model allow-list
constraint (claimed to be checked fourth) is answered with the *model*
error, not the temperature error: the service checks the model first. -/
theorem C4_counterexample :
    ¬ (0 ≤ (3 : ℚ) ∧ (3 : ℚ) ≤ 2) ∧
    "bad" ∉ defaultService.available_models ∧
    OllamaService.validateRequest defaultService settings [⟨"user", "hi"⟩]
        (some 3) none (some "bad") =
      .error ⟨400, "Model bad not available. Available models: llama3.1:70b, qwq:32b"⟩ ∧
    OllamaService.validateRequest defaultService settings [⟨"user", "hi"⟩]
        (some 3) none (some "bad") ≠
      .error ⟨400, "Temperature must be between 0 and 2"⟩ := by
  refine ⟨by norm_num, by decide, by decide, by decide⟩

/-- C4 as amended: the service validates in this order — (1) model
membership in the allow-list (skipped when no truthy model is given, in
which case the default is resolved), (2) the token-budget check (run only
when `max_tokens` is truthy), (3) the temperature range, (4) `max_tokens`
not exceeding the configured context length — reporting the first
violated constraint; when every check passes it returns the resolved
model, the default when none was given.  Non-emptiness of `messages`,
the temperature range and positivity of `max_tokens` are additionally
enforced earlier, at request-parse time, by the pydantic schema. -/
theorem C4_validation_order (svc : OllamaService) (cfg : Settings)
    (messages : List ChatMessage) (temperature : Option ℚ)
    (max_tokens : Option Int) (model : Option String) :
    (∀ e, svc.validate_model model = .error e →
      svc.validateRequest cfg messages temperature max_tokens model =
        .error e) ∧
    (∀ m e, svc.validate_model model = .ok m →
      svc.budgetCheck messages max_tokens = .error e →
      svc.validateRequest cfg messages temperature max_tokens model =
        .error e) ∧
    (∀ m e, svc.validate_model model = .ok m →
      svc.budgetCheck messages max_tokens = .ok () →
      tempCheck temperature = .error e →
      svc.validateRequest cfg messages temperature max_tokens model =
        .error e) ∧
    (∀ m e, svc.validate_model model = .ok m →
      svc.budgetCheck messages max_tokens = .ok () →
      tempCheck temperature = .ok () →
      maxTokensCheck cfg max_tokens = .error e →
      svc.validateRequest cfg messages temperature max_tokens model =
        .error e) ∧
    (∀ m, svc.validate_model model = .ok m →
      svc.budgetCheck messages max_tokens = .ok () →
      tempCheck temperature = .ok () →
      maxTokensCheck cfg max_tokens = .ok () →
      svc.validateRequest cfg messages temperature max_tokens model =
        .ok m) ∧
    (∀ m, svc.validateRequest cfg messages temperature max_tokens model =
        .ok m → model = none → m = svc.model) ∧
    (∀ r : ChatCompletionRequest, r.schemaOK = true → r.messages ≠ []) := by
  refine ⟨?_, ?_, ?_, ?_, ?_, ?_, ?_⟩
  · intro e he
    unfold OllamaService.validateRequest
    rw [he]
  · intro m e hm hb
    unfold OllamaService.validateRequest
    rw [hm, hb]
  · intro m e hm hb htc
    unfold OllamaService.validateRequest
    rw [hm, hb, htc]
  · intro m e hm hb htc hmc
    unfold OllamaService.validateRequest
    rw [hm, hb, htc, hmc]
  · intro m hm hb htc hmc
    unfold OllamaService.validateRequest
    rw [hm, hb, htc, hmc]
  · intro m hok hmo
    subst hmo
    unfold OllamaService.validateRequest at hok
    have hvm : svc.validate_model none = .ok svc.model := by
      unfold OllamaService.validate_model
      rw [if_neg]
      · rfl
      · simp [strTruthy]
    rw [hvm] at hok
    cases hb : svc.budgetCheck messages max_tokens with
    | error e => rw [hb] at hok; exact absurd hok (by simp)
    | ok v =>
      cases v
      rw [hb] at hok
      cases htc : tempCheck temperature with
      | error e => rw [htc] at hok; exact absurd hok (by simp)
      | ok v2 =>
        cases v2
        rw [htc] at hok
        cases hmc : maxTokensCheck cfg max_tokens with
        | error e => rw [hmc] at hok; exact absurd hok (by simp)
        | ok v3 =>
          cases v3
          rw [hmc] at hok
          simpa using hok.symm
  · intro r hr hemp
    unfold ChatCompletionRequest.schemaOK at hr
    rw [hemp] at hr
    simp at hr

/-- Witness for C4's amended theorem: with a disallowed model and an
out-of-range temperature, the model error is reported (conjunct 1), and a
fully valid call resolves the absent model to the default (conjunct 5). -/
theorem C4_validation_order_witness :
    OllamaService.validateRequest defaultService settings [⟨"user", "hi"⟩]
        (some 3) none (some "bad") =
      .error ⟨400, "Model bad not available. Available models: "
                    ++ String.intercalate ", " defaultService.available_models⟩ ∧
    OllamaService.validateRequest defaultService settings [⟨"user", "hi"⟩]
        none none none = .ok defaultService.model := by
  constructor
  · exact (C4_validation_order defaultService settings [⟨"user", "hi"⟩]
      (some 3) none (some "bad")).1 _ (by decide)
  · exact (C4_validation_order defaultService settings [⟨"user", "hi"⟩]
      none none none).2.2.2.2.1 defaultService.model (by decide) (by decide)
      (by decide) (by decide)

/-- C6: for every request whose temperature lies outside `[0, 2]`, the
service answers a 400-class ValidationError, and the backend is never
called: the verdict is the same whatever the backend outcome. -/
theorem C6_temperature_rejected (svc : OllamaService) (cfg : Settings)
    (backend : BackendResult) (uuid : String) (now : Int)
    (messages : List ChatMessage) (max_tokens : Option Int)
    (model : Option String) (t : ℚ) (ht : ¬ (0 ≤ t ∧ t ≤ 2)) :
    (∃ e, svc.generate_chat_completion cfg backend uuid now messages (some t)
        max_tokens model = .error e ∧ e.status_code = 400) ∧
    ∀ backend₂,
      svc.generate_chat_completion cfg backend uuid now messages (some t)
          max_tokens model =
        svc.generate_chat_completion cfg backend₂ uuid now messages (some t)
          max_tokens model := by
  have hval : ∃ e, svc.validateRequest cfg messages (some t) max_tokens model
      = .error e ∧ e.status_code = 400 := by
    unfold OllamaService.validateRequest
    cases hm : svc.validate_model model with
    | error e => exact ⟨e, rfl, validate_model_error_400 svc model e hm⟩
    | ok m =>
      cases hb : svc.budgetCheck messages max_tokens with
      | error e =>
        exact ⟨e, rfl, budgetCheck_error_400 svc messages max_tokens e hb⟩
      | ok v =>
        cases v
        rw [tempCheck_out_of_range t ht]
        exact ⟨⟨400, "Temperature must be between 0 and 2"⟩, rfl, rfl⟩
  obtain ⟨e, he, h400⟩ := hval
  constructor
  · refine ⟨e, ?_, h400⟩
    unfold OllamaService.generate_chat_completion
    rw [he]
  · intro backend₂
    unfold OllamaService.generate_chat_completion
    rw [he]

/-- Witness for C6 at temperature 3 against the default configuration. -/
theorem C6_temperature_rejected_witness :
    (∃ e, OllamaService.generate_chat_completion defaultService settings
        (.success (some "yo") none) "u6" 2 [⟨"user", "hi"⟩] (some 3)
        none none = .error e ∧ e.status_code = 400) ∧
    ∀ backend₂,
      OllamaService.generate_chat_completion defaultService settings
          (.success (some "yo") none) "u6" 2 [⟨"user", "hi"⟩] (some 3)
          none none =
        OllamaService.generate_chat_completion defaultService settings
          backend₂ "u6" 2 [⟨"user", "hi"⟩] (some 3) none none :=
  C6_temperature_rejected defaultService settings (.success (some "yo") none)
    "u6" 2 [⟨"user", "hi"⟩] none none 3 (by norm_num)

/-- C7: the estimator is the whitespace word count of every message scaled
by 1.3 (equivalently 1.3 times the total word count), and the budget check
raises a 400-class ValidationError exactly when the estimate plus the
requested `max_tokens` exceeds the configured context limit. -/
theorem C7_budget_estimator (svc : OllamaService)
    (messages : List ChatMessage) (max_tokens : Int) :
    estimatedTokens messages =
      (13/10 : ℚ) * ((messages.map (fun m => (wordCount m.content : ℚ))).sum) ∧
    ((∃ e, svc.validate_token_count messages max_tokens = .error e ∧
        e.status_code = 400) ↔
      estimatedTokens messages + (max_tokens : ℚ) >
        (svc.max_context_length : ℚ)) := by
  constructor
  · unfold estimatedTokens
    induction messages with
    | nil => simp
    | cons msg rest ih => simp [ih]; ring
  · unfold OllamaService.validate_token_count
    constructor
    · intro ⟨e, he, h400⟩
      by_contra hgt
      rw [if_neg hgt] at he
      exact absurd he (by simp)
    · intro hgt
      rw [if_pos hgt]
      exact ⟨_, rfl, rfl⟩

/-- Witness for C7's iff at a concrete over-budget input: one word at
1.3 estimated tokens plus the full context length exceeds the limit. -/
theorem C7_budget_estimator_witness :
    ∃ e, OllamaService.validate_token_count defaultService
        [⟨"user", "hello"⟩] 131072 = .error e ∧ e.status_code = 400 :=
  (C7_budget_estimator defaultService [⟨"user", "hello"⟩] 131072).2.mpr (by
    have hw1 : wordCount "hello" = 1 := by decide
    have hw : estimatedTokens [⟨"user", "hello"⟩] = 13/10 := by
      simp [estimatedTokens, hw1]
    have hc : defaultService.max_context_length = 131072 := rfl
    rw [hw, hc]
    norm_num)

/-- C9: once validation passes, the non-streaming failure mapping is — a
backend timeout becomes 504 "Request timed out"; a backend error status is
passed through with the backend's message embedded in the detail; any
other exception, and a backend body without `message.content` (whose
`KeyError` lands in the generic handler), become 500 internal errors. -/
theorem C9_error_taxonomy (svc : OllamaService) (cfg : Settings)
    (uuid : String) (now : Int) (messages : List ChatMessage)
    (temperature : Option ℚ) (max_tokens : Option Int)
    (model : Option String) (m : String)
    (hval : svc.validateRequest cfg messages temperature max_tokens model =
      .ok m) :
    svc.generate_chat_completion cfg .timeout uuid now messages temperature
        max_tokens model = .error ⟨504, "Request timed out"⟩ ∧
    (∀ st text, svc.generate_chat_completion cfg (.statusError st text) uuid
        now messages temperature max_tokens model =
      .error ⟨st, "Ollama API error: " ++ text⟩) ∧
    (∀ msg, svc.generate_chat_completion cfg (.otherError msg) uuid now
        messages temperature max_tokens model =
      .error ⟨500, "Internal server error: " ++ msg⟩) ∧
    (∀ usage, svc.generate_chat_completion cfg (.success none usage) uuid now
        messages temperature max_tokens model =
      .error ⟨500, "Internal server error: " ++ keyErrorStr⟩) := by
  refine ⟨?_, ?_, ?_, ?_⟩
  · unfold OllamaService.generate_chat_completion
    rw [hval]
  · intro st text
    unfold OllamaService.generate_chat_completion
    rw [hval]
  · intro msg
    unfold OllamaService.generate_chat_completion
    rw [hval]
  · intro usage
    unfold OllamaService.generate_chat_completion
    rw [hval]

/-- Witness for C9 against the default configuration and a minimal valid
request. -/
theorem C9_error_taxonomy_witness :
    OllamaService.generate_chat_completion defaultService settings .timeout
        "u7" 4 [⟨"user", "hi"⟩] none none none =
      .error ⟨504, "Request timed out"⟩ ∧
    OllamaService.generate_chat_completion defaultService settings
        (.statusError 503 "overloaded") "u7" 4 [⟨"user", "hi"⟩] none none
        none = .error ⟨503, "Ollama API error: overloaded"⟩ := by
  have h := C9_error_taxonomy defaultService settings "u7" 4
    [⟨"user", "hi"⟩] none none none defaultService.model (by decide)
  exact ⟨h.1, h.2.1 503 "overloaded"⟩

end GpuText
